import Mathlib

/-!
Shallow embedding of the Zoom → GHL webhook bridge (Express + Mongoose app):
the `/zoom-webhook` and `/ghl-webhook` handlers, `handleRegistrationEvent`,
the GHL API helpers, and the three Mongoose models (Contact, ZoomEvent,
Settings).  Stateful code is modelled by explicit state passing over a `DB`
record; remote HTTP calls are modelled by an oracle (`RemoteEnv`) fixing each
call's outcome, and the calls actually made are recorded in an effect trace.
JavaScript truthiness on optional strings (`undefined`/`""` falsy) is made
explicit.
-/

namespace GhlZoom

/-- JS truthiness test for an optional string: `undefined` and `""` are falsy.
`tval o` is `some s` exactly when `o` holds a truthy string `s`. -/
def tval : Option String → Option String
  | none => none
  | some s => if s = "" then none else some s

/-- Boolean JS truthiness of an optional string. -/
def truthyS (o : Option String) : Bool :=
  (tval o).isSome

/-- JS `a || b` on optional strings. -/
def jsOrS (a b : Option String) : Option String :=
  match tval a with
  | some s => some s
  | none => b

/-- JS `a || d` where the default `d` is a plain string (result always a string). -/
def jsOrD (a : Option String) (d : String) : String :=
  match tval a with
  | some s => s
  | none => d

/-- JS template-literal rendering of a possibly-undefined string value. -/
def jsToStr : Option String → String
  | some s => s
  | none => "undefined"

/-- A Zoom registrant object (`payload.object.registrant`). -/
structure Registrant where
  email : Option String
  first_name : Option String
  last_name : Option String
  phone : Option String
  deriving DecidableEq, Repr

/-- The `payload.object` of a Zoom webhook notification. -/
structure ZoomObject where
  id : Option String
  uuid : Option String
  registrant : Option Registrant
  email : Option String
  first_name : Option String
  last_name : Option String
  phone : Option String
  deriving DecidableEq, Repr

/-- The object itself used as the registrant (`objectData.registrant || objectData`). -/
def ZoomObject.asRegistrant (o : ZoomObject) : Registrant :=
  { email := o.email, first_name := o.first_name, last_name := o.last_name, phone := o.phone }

/-- Model of `const registrant = objectData.registrant || objectData`. -/
def effectiveRegistrant (o : ZoomObject) : Registrant :=
  o.registrant.getD o.asRegistrant

/-- The `payload` of a Zoom webhook request body. -/
structure ZoomPayload where
  plainToken : Option String
  object : Option ZoomObject
  deriving DecidableEq, Repr

/-- An inbound Zoom webhook request: body fields plus the consumed headers.
`bodyJson` stands for `JSON.stringify(req.body)`. -/
structure ZoomReq where
  event : Option String
  payload : Option ZoomPayload
  headerSignature : Option String
  headerTimestamp : Option String
  bodyJson : String
  deriving DecidableEq, Repr

/-- A row of the Contact collection (`ContactSchema`).  `ghlContactId` absent or
empty means the record is unlinked (upserts from `/ghl-webhook` bypass the
schema's `required`). -/
structure ContactRec where
  email : Option String
  ghlContactId : Option String
  firstName : Option String
  lastName : Option String
  phone : Option String
  locationId : Option String
  deriving DecidableEq, Repr

/-- A row of the ZoomEvent collection (`ZoomEventSchema`): the event ledger. -/
structure LedgerEntry where
  eventId : String
  eventType : Option String
  email : Option String
  deriving DecidableEq, Repr

/-- The MongoDB state: ZoomEvent ledger, Contact collection, Settings collection. -/
structure DB where
  ledger : List LedgerEntry
  contacts : List ContactRec
  settings : List (String × String)
  deriving DecidableEq, Repr

/-- Process environment configuration (`process.env`). -/
structure Config where
  zoomSecretToken : Option String
  ghlLocationId : Option String
  ghlWorkflowId : Option String
  verifySignature : Bool
  deriving DecidableEq, Repr

/-- Outcome of the GHL contact search call made by `searchGHLContact`. -/
inductive SearchOutcome where
  | found (id : String)
  | notFound
  | httpErr (status : Nat)
  deriving DecidableEq, Repr

/-- Outcome of the GHL contact creation call made by `createGHLContact`:
either success with the new id, or an HTTP failure with an optional status
and optional `response.data.meta.contactId`. -/
inductive CreateOutcome where
  | created (id : String)
  | failed (status : Option Nat) (metaContactId : Option String)
  deriving DecidableEq, Repr

/-- Clock field for `new Date()` read in UTC components (`month0` is the
0-based `getUTCMonth()` value). -/
structure UTCTime where
  year : Nat
  month0 : Nat
  day : Nat
  hour : Nat
  minute : Nat
  second : Nat
  deriving DecidableEq, Repr

/-- Oracle fixing the outcome of each external call during one delivery, plus
whether the ZoomEvent storage layer is unavailable, plus the current time. -/
structure RemoteEnv where
  search : SearchOutcome
  create : CreateOutcome
  tagsOk : Bool
  workflowOk : Bool
  ledgerFail : Bool
  now : UTCTime
  deriving DecidableEq, Repr

/-- A remote GHL API call performed during processing (the side-effect trace). -/
inductive Effect where
  | searchContact (email : String)
  | createContact (email : Option String)
  | addTags (contactId : Option String) (tags : List String)
  | enrollWorkflow (contactId : Option String) (workflowId : String) (eventStartTime : String)
  deriving DecidableEq, Repr

/-- The responses the `/zoom-webhook` handler can send. -/
inductive ZoomResp where
  | validationOk (plainToken encryptedToken : String)
  | badRequest
  | unauthorized
  | duplicate
  | received
  | serverError
  deriving DecidableEq, Repr

/-- HTTP status code of each `/zoom-webhook` response. -/
def ZoomResp.status : ZoomResp → Nat
  | ZoomResp.validationOk _ _ => 200
  | ZoomResp.badRequest => 400
  | ZoomResp.unauthorized => 401
  | ZoomResp.duplicate => 200
  | ZoomResp.received => 200
  | ZoomResp.serverError => 500

/-- Fields of a `/ghl-webhook` payload (flat or under `customData`). -/
structure GhlPayload where
  contactId : Option String
  email : Option String
  phone : Option String
  firstName : Option String
  lastName : Option String
  locationId : Option String
  zoom_tag : Option String
  deriving DecidableEq, Repr

/-- A `/ghl-webhook` request body: `data.customData || data`. -/
structure GhlBody where
  customData : Option GhlPayload
  flat : GhlPayload
  deriving DecidableEq, Repr

/-- The responses the `/ghl-webhook` handler can send. -/
inductive GhlResp where
  | synced
  | missingFields
  | serverError
  deriving DecidableEq, Repr

/-- HTTP status code of each `/ghl-webhook` response. -/
def GhlResp.status : GhlResp → Nat
  | GhlResp.synced => 200
  | GhlResp.missingFields => 400
  | GhlResp.serverError => 500

/-- Model of `Settings.findOne({ key })?.value`. -/
def settingsFind (db : DB) (k : String) : Option String :=
  (db.settings.find? (fun s => s.1 == k)).map Prod.snd

/-- Model of `Settings.findOneAndUpdate({ key }, { value }, { upsert: true })` on the
underlying list. -/
def settingsPut : List (String × String) → String → String → List (String × String)
  | [], k, v => [(k, v)]
  | s :: rest, k, v => if s.1 = k then (k, v) :: rest else s :: settingsPut rest k v

/-- The settings upsert lifted to the whole DB state. -/
def settingsUpsert (db : DB) (k v : String) : DB :=
  { db with settings := settingsPut db.settings k v }

/-- Model of `globalTagSetting?.value || 'Zoom Registration'` (step 5 of
`handleRegistrationEvent`). -/
def currentGlobalTag (db : DB) : String :=
  jsOrD (settingsFind db "globalZoomTag") "Zoom Registration"

/-- The `pad` helper from `addContactToWorkflow`: two-digit zero padding. -/
def pad (n : Nat) : String :=
  if n < 10 then "0" ++ toString n else toString n

/-- The `eventStartTime` string built inside `addContactToWorkflow`:
`yyyy-MM-ddTHH:mm:ss+00:00` from the UTC components of `new Date()`. -/
def formatGhlTimestamp (t : UTCTime) : String :=
  toString t.year ++ "-" ++ pad (t.month0 + 1) ++ "-" ++ pad t.day ++ "T" ++
    pad t.hour ++ ":" ++ pad t.minute ++ ":" ++ pad t.second ++ "+00:00"

/-- Model of `Contact.updateOne({ _id: contact._id }, { ghlContactId })` where `contact`
was found by (unique) email: set the id on the first record with that email. -/
def linkContactByEmail : List ContactRec → String → String → List ContactRec
  | [], _, _ => []
  | c :: rest, em, gid =>
    if c.email = some em then { c with ghlContactId := some gid } :: rest
    else c :: linkContactByEmail rest em gid

/-- Step 4 of `handleRegistrationEvent`: `if (ghlContactId)` then either link
the existing (unlinked) record or `Contact.create` a new one. -/
def saveResolvedContact (cfg : Config) (db : DB) (contact : Option ContactRec)
    (email : String) (gid : String) (registrant : Registrant) : DB :=
  if gid = "" then db
  else
    match contact with
    | some _ => { db with contacts := linkContactByEmail db.contacts email gid }
    | none =>
      { db with contacts := db.contacts ++ [{
          email := some email, ghlContactId := some gid,
          firstName := registrant.first_name, lastName := registrant.last_name,
          phone := registrant.phone, locationId := cfg.ghlLocationId }] }

/-- Result of steps 2–4 of `handleRegistrationEvent`: either a resolved
(possibly falsy) GHL contact id with the updated DB and the remote calls made,
or the `return` that skips tagging when creation failed unrecoverably. -/
inductive ResolveResult where
  | resolved (db : DB) (effs : List Effect) (ghlContactId : Option String)
  | aborted (db : DB) (effs : List Effect)
  deriving DecidableEq, Repr

/-- Steps 1–4 of `handleRegistrationEvent` after the local `Contact.findOne`:
fast path on a linked record, else GHL search (`searchGHLContact` returns null
on 404 and on a caught thrown error), else creation with 400-conflict
recovery via `response.data.meta.contactId`, then the DB save. -/
def resolveContact (cfg : Config) (env : RemoteEnv) (db : DB) (contact : Option ContactRec)
    (email : String) (registrant : Registrant) : ResolveResult :=
  let cachedId := contact.bind ContactRec.ghlContactId
  if truthyS cachedId then
    ResolveResult.resolved db [] cachedId
  else
    let ghlContact : Option String :=
      match env.search with
      | SearchOutcome.found gid => some gid
      | SearchOutcome.notFound => none
      | SearchOutcome.httpErr _ => none
    match ghlContact with
    | some gid =>
      ResolveResult.resolved (saveResolvedContact cfg db contact email gid registrant)
        [Effect.searchContact email] (some gid)
    | none =>
      match env.create with
      | CreateOutcome.created gid =>
        ResolveResult.resolved (saveResolvedContact cfg db contact email gid registrant)
          [Effect.searchContact email, Effect.createContact registrant.email] (some gid)
      | CreateOutcome.failed status meta =>
        if status = some 400 ∧ truthyS meta then
          ResolveResult.resolved
            (saveResolvedContact cfg db contact email (jsOrD meta "") registrant)
            [Effect.searchContact email, Effect.createContact registrant.email]
            (some (jsOrD meta ""))
        else
          ResolveResult.aborted db [Effect.searchContact email, Effect.createContact registrant.email]

/-- Steps 5–7 of `handleRegistrationEvent`: re-read the global tag, call
`addGHLTags` with `[globalTag, 'zoom registered']`, then, when
`GHL_WORKFLOW_ID` is configured, attempt `addContactToWorkflow` (its failure
is caught and only logged). -/
def applyTagsAndWorkflow (cfg : Config) (env : RemoteEnv) (db : DB) (effs : List Effect)
    (ghlContactId : Option String) : DB × List Effect × Option String :=
  let tags : List String := [currentGlobalTag db, "zoom registered"]
  let effs1 := effs ++ [Effect.addTags ghlContactId tags]
  if env.tagsOk then
    if truthyS cfg.ghlWorkflowId then
      (db, effs1 ++ [Effect.enrollWorkflow ghlContactId (jsOrD cfg.ghlWorkflowId "")
        (formatGhlTimestamp env.now)], ghlContactId)
    else
      (db, effs1, ghlContactId)
  else
    (db, effs1, ghlContactId)

/-- Whitespace trimming on the character list (the semantics of
`String.trim` / JS `trim()` on ASCII input, structurally recursive). -/
def trimList (l : List Char) : List Char :=
  ((l.dropWhile Char.isWhitespace).reverse.dropWhile Char.isWhitespace).reverse

/-- Model of `s.trim()` as a structurally recursive string function. -/
def trimStr (s : String) : String :=
  String.mk (trimList s.data)

/-- Model of `s.toLowerCase()` (ASCII case mapping, as `String.toLower` performs). -/
def toLowerStr (s : String) : String :=
  String.mk (s.data.map Char.toLower)

/-- Model of `let email = (registrant.email || '').trim().toLowerCase()`. -/
def normalizeEmail (e : Option String) : String :=
  toLowerStr (trimStr (jsOrD e ""))

/-- The normalized registrant email `handleRegistrationEvent` works with
(`""` when the payload has no object or no usable email). -/
def normEmailOf (payload : Option ZoomPayload) : String :=
  match payload.bind ZoomPayload.object with
  | none => ""
  | some o => normalizeEmail (effectiveRegistrant o).email

/-- Model of `handleRegistrationEvent(payload, eventType)`: returns the final DB, the
remote calls made, and the value of `ghlContactId` at the tagging step
(`none` when the function returned before tagging). -/
def handleRegistrationEvent (cfg : Config) (env : RemoteEnv) (db : DB)
    (payload : Option ZoomPayload) (eventType : String) : DB × List Effect × Option String :=
  match payload.bind ZoomPayload.object with
  | none => (db, [], none)
  | some objectData =>
    let registrant := effectiveRegistrant objectData
    let email := normalizeEmail registrant.email
    if email = "" then (db, [], none)
    else
      let contact := db.contacts.find? (fun c => c.email == some email)
      match resolveContact cfg env db contact email registrant with
      | ResolveResult.resolved db1 effs gid => applyTagsAndWorkflow cfg env db1 effs gid
      | ResolveResult.aborted db1 effs => (db1, effs, none)

/-- Model of `payload?.object?.id` (the meeting id). -/
def meetingIdOf (payload : Option ZoomPayload) : Option String :=
  payload.bind fun p => p.object.bind ZoomObject.id

/-- Model of `payload?.object?.uuid`. -/
def uuidOf (payload : Option ZoomPayload) : Option String :=
  payload.bind fun p => p.object.bind ZoomObject.uuid

/-- Model of `payload?.object?.registrant?.email || payload?.object?.email`. -/
def registrantEmailOf (payload : Option ZoomPayload) : Option String :=
  jsOrS (payload.bind fun p => p.object.bind fun o => o.registrant.bind Registrant.email)
        (payload.bind fun p => p.object.bind ZoomObject.email)

/-- The idempotency-key derivation of the `/zoom-webhook` handler:
composite `` `${meetingId}_${registrantEmail}_${event}` `` when both meeting id
and registrant email are truthy, else `payload.object.uuid` when truthy, else
the `x-zm-request-timestamp` header. -/
def deriveEventId (req : ZoomReq) : Option String :=
  if truthyS (meetingIdOf req.payload) && truthyS (registrantEmailOf req.payload) then
    some (jsToStr (meetingIdOf req.payload) ++ "_" ++
          jsToStr (registrantEmailOf req.payload) ++ "_" ++ jsToStr req.event)
  else if truthyS (uuidOf req.payload) then
    uuidOf req.payload
  else
    req.headerTimestamp

/-- Model of `verifyZoomSignature(req)`: HMAC-SHA256 (abstracted as `hmac`) over
`"v0:" + timestamp + ":" + JSON.stringify(req.body)` compared to the header. -/
def verifyZoomSignature (cfg : Config) (hmac : String → String → String) (req : ZoomReq) : Bool :=
  match tval req.headerSignature, tval req.headerTimestamp, tval cfg.zoomSecretToken with
  | some sig, some ts, some secret =>
    sig == "v0=" ++ hmac secret ("v0:" ++ ts ++ ":" ++ req.bodyJson)
  | _, _, _ => false

/-- Model of `ZoomEvent.findOne({ eventId })` as an existence test. -/
def ledgerHas (db : DB) (eid : String) : Bool :=
  db.ledger.any (fun e => e.eventId == eid)

/-- The registration-processing tail of the `/zoom-webhook` handler: dispatch
to `handleRegistrationEvent` for the two registration event types, then
respond 200. -/
def processRegistration (cfg : Config) (env : RemoteEnv) (db : DB) (req : ZoomReq) :
    DB × List Effect × ZoomResp :=
  if req.event = some "webinar.registration_created" ∨
      req.event = some "meeting.registration_created" then
    let r := handleRegistrationEvent cfg env db req.payload (jsToStr req.event)
    (r.1, r.2.1, ZoomResp.received)
  else
    (db, [], ZoomResp.received)

/-- The `/zoom-webhook` handler.  `raceInsert` is a ledger entry written by a
concurrently dispatched delivery between this handler's `ZoomEvent.findOne`
check and its `ZoomEvent.create` (the two awaits are suspension points);
`none` models an uncontended run.  A `ZoomEvent.create` hitting the unique
index on `eventId`, or any ZoomEvent storage failure (`env.ledgerFail`),
throws and is answered by the outer catch with 500. -/
def processZoomWebhook (cfg : Config) (env : RemoteEnv) (hmac : String → String → String)
    (raceInsert : Option LedgerEntry) (db : DB) (req : ZoomReq) :
    DB × List Effect × ZoomResp :=
  if req.event = some "endpoint.url_validation" then
    match tval (req.payload.bind ZoomPayload.plainToken), tval cfg.zoomSecretToken with
    | some pt, some secret => (db, [], ZoomResp.validationOk pt (hmac secret pt))
    | some _, none => (db, [], ZoomResp.badRequest)
    | none, _ => (db, [], ZoomResp.badRequest)
  else if cfg.verifySignature && !(verifyZoomSignature cfg hmac req) then
    (db, [], ZoomResp.unauthorized)
  else
    match tval (deriveEventId req) with
    | some eid =>
      if env.ledgerFail then
        (db, [], ZoomResp.serverError)
      else if ledgerHas db eid then
        (db, [], ZoomResp.duplicate)
      else
        let db1 : DB :=
          match raceInsert with
          | some e => { db with ledger := db.ledger ++ [e] }
          | none => db
        if ledgerHas db1 eid then
          (db1, [], ZoomResp.serverError)
        else
          let db2 : DB := { db1 with ledger := db1.ledger ++ [{
            eventId := eid, eventType := req.event,
            email := registrantEmailOf req.payload }] }
          processRegistration cfg env db2 req
    | none => processRegistration cfg env db req

/-- Empty-string email sanitization of the `/ghl-webhook` handler:
`if (typeof email === 'string' && email.trim() === '') email = undefined`. -/
def sanitizeEmail : Option String → Option String
  | none => none
  | some s => if trimStr s = "" then none else some s

/-- The `$set` document of the `/ghl-webhook` contact upsert (absent fields
are stripped by Mongoose and leave the stored value unchanged). -/
structure ContactUpdate where
  ghlContactId : Option String
  email : Option String
  phone : Option String
  firstName : Option String
  lastName : Option String
  locationId : Option String
  deriving DecidableEq, Repr

/-- The `$set` semantics for one field: a defined new value overwrites, an
undefined one is stripped from the update and keeps the stored value. -/
def setField : Option String → Option String → Option String
  | some v, _ => some v
  | none, old => old

/-- Apply an update document to an existing record (defined fields overwrite). -/
def applyUpdate (c : ContactRec) (u : ContactUpdate) : ContactRec :=
  { email := setField u.email c.email, ghlContactId := setField u.ghlContactId c.ghlContactId,
    firstName := setField u.firstName c.firstName, lastName := setField u.lastName c.lastName,
    phone := setField u.phone c.phone, locationId := setField u.locationId c.locationId }

/-- The document inserted when the upsert finds no match. -/
def docOfUpdate (u : ContactUpdate) : ContactRec :=
  { email := u.email, ghlContactId := u.ghlContactId, firstName := u.firstName,
    lastName := u.lastName, phone := u.phone, locationId := u.locationId }

/-- Model of `Contact.findOneAndUpdate(filter, update, { upsert: true })`: update the
first record matching the filter, else insert `docOfUpdate u`. -/
def upsertFirst (p : ContactRec → Bool) (u : ContactUpdate) : List ContactRec → List ContactRec
  | [] => [docOfUpdate u]
  | c :: rest => if p c then applyUpdate c u :: rest else c :: upsertFirst p u rest

/-- The global-tag logic of the `/ghl-webhook` handler: when `zoom_tag` is
truthy and differs from (or is missing in) the stored Global Setting, upsert
it. -/
def ghlTagStep (db : DB) (zoom_tag : Option String) : DB :=
  if truthyS zoom_tag then
    let zt := jsToStr zoom_tag
    match settingsFind db "globalZoomTag" with
    | none => settingsUpsert db "globalZoomTag" zt
    | some v => if v = zt then db else settingsUpsert db "globalZoomTag" zt
  else db

/-- The contact `$set` document built by the `/ghl-webhook` handler. -/
def ghlUpdateOf (cfg : Config) (p : GhlPayload) : ContactUpdate :=
  { ghlContactId := p.contactId, email := sanitizeEmail p.email, phone := p.phone,
    firstName := p.firstName, lastName := p.lastName,
    locationId := jsOrS p.locationId cfg.ghlLocationId }

/-- The `/ghl-webhook` handler. -/
def processGhlWebhook (cfg : Config) (db : DB) (body : GhlBody) : DB × GhlResp :=
  let payload := body.customData.getD body.flat
  let email := sanitizeEmail payload.email
  if !(truthyS email) && !(truthyS payload.contactId) then
    (db, GhlResp.missingFields)
  else
    let db1 := ghlTagStep db payload.zoom_tag
    let upd := ghlUpdateOf cfg payload
    let db2 :=
      if truthyS payload.contactId then
        { db1 with contacts := upsertFirst (fun c => c.ghlContactId == payload.contactId) upd db1.contacts }
      else
        { db1 with contacts := upsertFirst (fun c => c.email == email) upd db1.contacts }
    (db2, GhlResp.synced)

/-! ### Concrete inputs used by witnesses -/

/-- A process configuration with signature verification off and a workflow id. -/
def cfg0 : Config :=
  { zoomSecretToken := some "sec", ghlLocationId := some "loc1",
    ghlWorkflowId := some "wf1", verifySignature := false }

/-- A fixed clock value. -/
def now0 : UTCTime := { year := 2026, month0 := 9, day := 11, hour := 3, minute := 4, second := 5 }

/-- A remote environment: search misses, creation succeeds with id `g1`. -/
def env0 : RemoteEnv :=
  { search := SearchOutcome.notFound, create := CreateOutcome.created "g1",
    tagsOk := true, workflowOk := true, ledgerFail := false, now := now0 }

/-- The empty database. -/
def db0 : DB := { ledger := [], contacts := [], settings := [] }

/-- A Zoom registration object: meeting `555`, registrant `A@x.com`. -/
def obj0 : ZoomObject :=
  { id := some "555", uuid := some "uu",
    registrant := some { email := some "A@x.com", first_name := some "A",
                         last_name := some "B", phone := some "1" },
    email := none, first_name := none, last_name := none, phone := none }

/-- A webinar-registration delivery for `obj0`. -/
def req0 : ZoomReq :=
  { event := some "webinar.registration_created",
    payload := some { plainToken := none, object := some obj0 },
    headerSignature := none, headerTimestamp := some "111", bodyJson := "{}" }

/-- The meeting of `obj0` with a second registrant, `b@x.com`. -/
def obj0b : ZoomObject :=
  { id := some "555", uuid := some "uu",
    registrant := some { email := some "b@x.com", first_name := none,
                         last_name := none, phone := none },
    email := none, first_name := none, last_name := none, phone := none }

/-- A second registrant (`b@x.com`) registering for the same meeting. -/
def req0b : ZoomReq :=
  { event := some "webinar.registration_created",
    payload := some { plainToken := none, object := some obj0b },
    headerSignature := none, headerTimestamp := some "222", bodyJson := "{}" }

/-- A concrete stand-in for the HMAC-SHA256 function. -/
def hmac0 : String → String → String := fun _ m => m

/-! ### Helper lemmas -/

lemma string_ext {s t : String} (h : s.data = t.data) : s = t := by
  cases s; cases t; simp_all

lemma tval_eq_some {o : Option String} {s : String} (h : tval o = some s) :
    o = some s ∧ s ≠ "" := by
  cases o with
  | none => simp [tval] at h
  | some v =>
    by_cases hv : v = "" <;> simp [tval, hv] at h
    · exact ⟨by rw [h], by rw [← h]; exact hv⟩

lemma truthyS_of_tval {o : Option String} {s : String} (h : tval o = some s) :
    truthyS o = true := by
  simp [truthyS, h]

lemma deriveEventId_composite (req : ZoomReq) (mid em : String)
    (h1 : tval (meetingIdOf req.payload) = some mid)
    (h2 : tval (registrantEmailOf req.payload) = some em) :
    deriveEventId req = some (mid ++ "_" ++ em ++ "_" ++ jsToStr req.event) := by
  obtain ⟨ho1, hne1⟩ := tval_eq_some h1
  obtain ⟨ho2, hne2⟩ := tval_eq_some h2
  have ht1 : truthyS (some mid) = true := by simp [truthyS, tval, hne1]
  have ht2 : truthyS (some em) = true := by simp [truthyS, tval, hne2]
  simp [deriveEventId, ho1, ho2, ht1, ht2, jsToStr]

lemma composite_inj {mid ev e₁ e₂ : String}
    (h : mid ++ "_" ++ e₁ ++ "_" ++ ev = mid ++ "_" ++ e₂ ++ "_" ++ ev) : e₁ = e₂ := by
  have hd := congrArg String.data h
  simp only [String.data_append, List.append_assoc] at hd
  have h1 := List.append_cancel_left hd
  have h2 := List.append_cancel_left h1
  have h3 := List.append_cancel_right h2
  exact string_ext h3

/-! ### C1 -/

/-- Claim C1: when an inbound notification carries a (truthy) meeting id and a
(truthy) registrant email, the derived event identity is the composite
`meetingId_email_eventType`; hence distinct registrant emails for the same
meeting id and event type derive distinct identities, and the derivation is a
function of (event, payload, timestamp header) alone, so a redelivery derives
the same identity; when either component is missing, the identity falls back
to `payload.object.uuid` when truthy, else to the `x-zm-request-timestamp`
header. -/
theorem C1_event_identity :
    (∀ req : ZoomReq, ∀ mid em : String,
        tval (meetingIdOf req.payload) = some mid →
        tval (registrantEmailOf req.payload) = some em →
        deriveEventId req = some (mid ++ "_" ++ em ++ "_" ++ jsToStr req.event)) ∧
    (∀ req₁ req₂ : ZoomReq, ∀ mid em₁ em₂ : String,
        tval (meetingIdOf req₁.payload) = some mid →
        tval (meetingIdOf req₂.payload) = some mid →
        tval (registrantEmailOf req₁.payload) = some em₁ →
        tval (registrantEmailOf req₂.payload) = some em₂ →
        req₁.event = req₂.event → em₁ ≠ em₂ →
        deriveEventId req₁ ≠ deriveEventId req₂) ∧
    (∀ req₁ req₂ : ZoomReq,
        req₁.event = req₂.event → req₁.payload = req₂.payload →
        req₁.headerTimestamp = req₂.headerTimestamp →
        deriveEventId req₁ = deriveEventId req₂) ∧
    (∀ req : ZoomReq,
        (truthyS (meetingIdOf req.payload) && truthyS (registrantEmailOf req.payload)) = false →
        deriveEventId req =
          (if truthyS (uuidOf req.payload) then uuidOf req.payload else req.headerTimestamp)) := by
  refine ⟨deriveEventId_composite, ?_, ?_, ?_⟩
  · intro req₁ req₂ mid em₁ em₂ h1 h2 h3 h4 hev hne
    rw [deriveEventId_composite req₁ mid em₁ h1 h3,
        deriveEventId_composite req₂ mid em₂ h2 h4, hev]
    intro h
    exact hne (composite_inj (Option.some.inj h))
  · intro req₁ req₂ hev hp ht
    simp only [deriveEventId, meetingIdOf, registrantEmailOf, uuidOf]
    rw [hev, hp, ht]
  · intro req h
    simp [deriveEventId, h]

/-- Witness for C1: concrete composite derivation and distinctness of the two
registrants of meeting `555`. -/
theorem C1_event_identity_witness :
    deriveEventId req0 = some ("555" ++ "_" ++ "A@x.com" ++ "_" ++ "webinar.registration_created") ∧
    deriveEventId req0 ≠ deriveEventId req0b :=
  ⟨C1_event_identity.1 req0 "555" "A@x.com" (by decide) (by decide),
   C1_event_identity.2.1 req0 req0b "555" "A@x.com" "b@x.com"
     (by decide) (by decide) (by decide) (by decide) (by decide) (by decide)⟩

/-! ### Preservation lemmas: registration processing never touches the ledger
or the settings -/

lemma saveResolvedContact_ledger (cfg : Config) (db : DB) (contact : Option ContactRec)
    (email gid : String) (r : Registrant) :
    (saveResolvedContact cfg db contact email gid r).ledger = db.ledger := by
  unfold saveResolvedContact
  split
  · rfl
  · split <;> rfl

lemma saveResolvedContact_settings (cfg : Config) (db : DB) (contact : Option ContactRec)
    (email gid : String) (r : Registrant) :
    (saveResolvedContact cfg db contact email gid r).settings = db.settings := by
  unfold saveResolvedContact
  split
  · rfl
  · split <;> rfl

lemma applyTagsAndWorkflow_fst (cfg : Config) (env : RemoteEnv) (db : DB)
    (effs : List Effect) (g : Option String) :
    (applyTagsAndWorkflow cfg env db effs g).1 = db := by
  unfold applyTagsAndWorkflow
  split
  · split <;> rfl
  · rfl

lemma applyTagsAndWorkflow_outcome (cfg : Config) (env : RemoteEnv) (db : DB)
    (effs : List Effect) (g : Option String) :
    (applyTagsAndWorkflow cfg env db effs g).2.2 = g := by
  unfold applyTagsAndWorkflow
  split
  · split <;> rfl
  · rfl

/-- The DB component of a resolution result. -/
def rrDB : ResolveResult → DB
  | ResolveResult.resolved d _ _ => d
  | ResolveResult.aborted d _ => d

lemma resolveContact_ledger (cfg : Config) (env : RemoteEnv) (db : DB)
    (contact : Option ContactRec) (email : String) (r : Registrant) :
    (rrDB (resolveContact cfg env db contact email r)).ledger = db.ledger := by
  simp only [resolveContact]
  split
  · rfl
  · split
    · simp [rrDB, saveResolvedContact_ledger]
    · split
      · simp [rrDB, saveResolvedContact_ledger]
      · split
        · simp [rrDB, saveResolvedContact_ledger]
        · rfl

lemma resolveContact_settings (cfg : Config) (env : RemoteEnv) (db : DB)
    (contact : Option ContactRec) (email : String) (r : Registrant) :
    (rrDB (resolveContact cfg env db contact email r)).settings = db.settings := by
  simp only [resolveContact]
  split
  · rfl
  · split
    · simp [rrDB, saveResolvedContact_settings]
    · split
      · simp [rrDB, saveResolvedContact_settings]
      · split
        · simp [rrDB, saveResolvedContact_settings]
        · rfl

lemma handleRegistrationEvent_ledger (cfg : Config) (env : RemoteEnv) (db : DB)
    (payload : Option ZoomPayload) (et : String) :
    (handleRegistrationEvent cfg env db payload et).1.ledger = db.ledger := by
  simp only [handleRegistrationEvent]
  split
  · rfl
  · split
    · rfl
    · split
      · next db1 effs g heq =>
        rw [applyTagsAndWorkflow_fst]
        have h : (rrDB (ResolveResult.resolved db1 effs g)).ledger = db.ledger := by
          rw [← heq]; exact resolveContact_ledger _ _ _ _ _ _
        exact h
      · next db1 effs heq =>
        have h : (rrDB (ResolveResult.aborted db1 effs)).ledger = db.ledger := by
          rw [← heq]; exact resolveContact_ledger _ _ _ _ _ _
        exact h

lemma handleRegistrationEvent_settings (cfg : Config) (env : RemoteEnv) (db : DB)
    (payload : Option ZoomPayload) (et : String) :
    (handleRegistrationEvent cfg env db payload et).1.settings = db.settings := by
  simp only [handleRegistrationEvent]
  split
  · rfl
  · split
    · rfl
    · split
      · next db1 effs g heq =>
        rw [applyTagsAndWorkflow_fst]
        have h : (rrDB (ResolveResult.resolved db1 effs g)).settings = db.settings := by
          rw [← heq]; exact resolveContact_settings _ _ _ _ _ _
        exact h
      · next db1 effs heq =>
        have h : (rrDB (ResolveResult.aborted db1 effs)).settings = db.settings := by
          rw [← heq]; exact resolveContact_settings _ _ _ _ _ _
        exact h

lemma processRegistration_ledger (cfg : Config) (env : RemoteEnv) (db : DB) (req : ZoomReq) :
    (processRegistration cfg env db req).1.ledger = db.ledger := by
  unfold processRegistration
  split
  · exact handleRegistrationEvent_ledger cfg env db req.payload _
  · rfl

/-! ### C2 -/

/-- Claim C2: after an uncontended first delivery of a request whose derived
event identity `eid` is fresh, a second delivery of the same request (under an
arbitrary remote environment) returns the duplicate 200 response, performs no
remote calls, and leaves the whole database state — ledger, contacts and
settings — unchanged. -/
theorem C2_duplicate_no_side_effects
    (cfg : Config) (env env' : RemoteEnv) (hmac : String → String → String)
    (db : DB) (req : ZoomReq) (eid : String)
    (hval : req.event ≠ some "endpoint.url_validation")
    (hsig : cfg.verifySignature = false ∨ verifyZoomSignature cfg hmac req = true)
    (hid : tval (deriveEventId req) = some eid)
    (hl : env.ledgerFail = false) (hl' : env'.ledgerFail = false)
    (hfresh : ledgerHas db eid = false) :
    processZoomWebhook cfg env' hmac none (processZoomWebhook cfg env hmac none db req).1 req
      = ((processZoomWebhook cfg env hmac none db req).1, [], ZoomResp.duplicate) := by
  have hcond : (cfg.verifySignature && !(verifyZoomSignature cfg hmac req)) = false := by
    rcases hsig with h | h <;> simp [h]
  have hrun1 : processZoomWebhook cfg env hmac none db req =
      processRegistration cfg env
        { db with ledger := db.ledger ++ [⟨eid, req.event, registrantEmailOf req.payload⟩] } req := by
    simp [processZoomWebhook, hval, hcond, hid, hl, hfresh]
  have hhas : ledgerHas (processZoomWebhook cfg env hmac none db req).1 eid = true := by
    rw [hrun1]
    have hled := processRegistration_ledger cfg env
      { db with ledger := db.ledger ++ [⟨eid, req.event, registrantEmailOf req.payload⟩] } req
    simp only [ledgerHas]
    rw [hled]
    simp
  generalize hR : (processZoomWebhook cfg env hmac none db req).1 = R at hhas ⊢
  simp [processZoomWebhook, hval, hcond, hid, hl', hhas]

/-- Witness for C2: the concrete redelivery of `req0` is answered with the
duplicate 200 path and changes nothing. -/
theorem C2_duplicate_no_side_effects_witness :
    processZoomWebhook cfg0 env0 hmac0 none (processZoomWebhook cfg0 env0 hmac0 none db0 req0).1 req0
      = ((processZoomWebhook cfg0 env0 hmac0 none db0 req0).1, [], ZoomResp.duplicate) :=
  C2_duplicate_no_side_effects cfg0 env0 env0 hmac0 db0 req0
    "555_A@x.com_webinar.registration_created"
    (by decide) (Or.inl rfl) (by decide) rfl rfl (by decide)

/-! ### C3 -/

/-- An entry written by a concurrent delivery carrying `req0`'s derived id. -/
def raceEntry0 : LedgerEntry :=
  { eventId := "555_A@x.com_webinar.registration_created",
    eventType := some "webinar.registration_created", email := some "A@x.com" }

/-- Claim C3 counterexample: when the Event Ledger insert for `req0`'s derived id
hits the `eventId` unique index because the prior existence check raced
`raceEntry0`'s concurrent insert, the handler responds HTTP 500 — not the
duplicate-success outcome the claim requires. -/
theorem C3_counterexample :
    (processZoomWebhook cfg0 env0 hmac0 (some raceEntry0) db0 req0).2.2 = ZoomResp.serverError ∧
    (processZoomWebhook cfg0 env0 hmac0 (some raceEntry0) db0 req0).2.2.status = 500 ∧
    (processZoomWebhook cfg0 env0 hmac0 (some raceEntry0) db0 req0).2.2 ≠ ZoomResp.duplicate := by
  decide

/-- Claim C3 amended: the `findOne` existence check is the only duplicate signal:
when it finds the derived id the handler short-circuits with the duplicate 200
response; but a ledger insert that fails on the `eventId` unique index because
the check raced a concurrent insert propagates to the generic error handler
and is surfaced as HTTP 500, not reinterpreted as the duplicate outcome. -/
theorem C3_dup_key_insert_yields_500
    (cfg : Config) (env : RemoteEnv) (hmac : String → String → String)
    (db : DB) (req : ZoomReq) (eid : String) (e : LedgerEntry)
    (hval : req.event ≠ some "endpoint.url_validation")
    (hsig : cfg.verifySignature = false ∨ verifyZoomSignature cfg hmac req = true)
    (hid : tval (deriveEventId req) = some eid)
    (hl : env.ledgerFail = false) :
    (ledgerHas db eid = true →
      ∀ race : Option LedgerEntry,
        processZoomWebhook cfg env hmac race db req = (db, [], ZoomResp.duplicate)) ∧
    (ledgerHas db eid = false → e.eventId = eid →
      processZoomWebhook cfg env hmac (some e) db req
        = ({ db with ledger := db.ledger ++ [e] }, [], ZoomResp.serverError)) := by
  have hcond : (cfg.verifySignature && !(verifyZoomSignature cfg hmac req)) = false := by
    rcases hsig with h | h <;> simp [h]
  constructor
  · intro hhas race
    simp [processZoomWebhook, hval, hcond, hid, hl, hhas]
  · intro hfresh he
    have hhas1 : ledgerHas { db with ledger := db.ledger ++ [e] } eid = true := by
      simp [ledgerHas, he]
    simp [processZoomWebhook, hval, hcond, hid, hl, hfresh, hhas1]

/-- Witness for the amended C3: the concrete race on `req0` is answered
with HTTP 500 and the ledger keeps only the concurrently inserted entry. -/
theorem C3_dup_key_insert_yields_500_witness :
    processZoomWebhook cfg0 env0 hmac0 (some raceEntry0) db0 req0
      = ({ db0 with ledger := db0.ledger ++ [raceEntry0] }, [], ZoomResp.serverError) :=
  (C3_dup_key_insert_yields_500 cfg0 env0 hmac0 db0 req0
    "555_A@x.com_webinar.registration_created" raceEntry0
    (by decide) (Or.inl rfl) (by decide) rfl).2 (by decide) (by decide)

/-! ### Unfolding and inversion lemmas for registration handling -/

lemma handleRegistrationEvent_eq (cfg : Config) (env : RemoteEnv) (db : DB)
    (payload : Option ZoomPayload) (et : String) (o : ZoomObject)
    (ho : payload.bind ZoomPayload.object = some o)
    (hne : normEmailOf payload ≠ "") :
    handleRegistrationEvent cfg env db payload et =
      (match resolveContact cfg env db
          (db.contacts.find? (fun c => c.email == some (normEmailOf payload)))
          (normEmailOf payload) (effectiveRegistrant o) with
       | ResolveResult.resolved db1 effs g => applyTagsAndWorkflow cfg env db1 effs g
       | ResolveResult.aborted db1 effs => (db1, effs, none)) := by
  have hemail : normEmailOf payload = normalizeEmail (effectiveRegistrant o).email := by
    simp [normEmailOf, ho]
  rw [hemail] at hne ⊢
  simp [handleRegistrationEvent, ho, hne]

lemma applyTagsAndWorkflow_eq (cfg : Config) (env : RemoteEnv) (db : DB)
    (effs : List Effect) (g : Option String) :
    applyTagsAndWorkflow cfg env db effs g =
      (db, effs ++ Effect.addTags g [currentGlobalTag db, "zoom registered"] ::
        (if env.tagsOk && truthyS cfg.ghlWorkflowId then
          [Effect.enrollWorkflow g (jsOrD cfg.ghlWorkflowId "") (formatGhlTimestamp env.now)]
        else []), g) := by
  unfold applyTagsAndWorkflow
  cases htag : env.tagsOk <;> cases hwf : truthyS cfg.ghlWorkflowId <;> simp [htag, hwf]

lemma resolveContact_fast (cfg : Config) (env : RemoteEnv) (db : DB)
    (contact : Option ContactRec) (email : String) (r : Registrant)
    (h : truthyS (contact.bind ContactRec.ghlContactId) = true) :
    resolveContact cfg env db contact email r
      = ResolveResult.resolved db [] (contact.bind ContactRec.ghlContactId) := by
  simp [resolveContact, h]

lemma resolveContact_resolved_inv (cfg : Config) (env : RemoteEnv) (db : DB)
    (contact : Option ContactRec) (email : String) (r : Registrant)
    (db1 : DB) (effs : List Effect) (g : Option String)
    (h : resolveContact cfg env db contact email r = ResolveResult.resolved db1 effs g) :
    (truthyS (contact.bind ContactRec.ghlContactId) = true ∧ db1 = db ∧
      g = contact.bind ContactRec.ghlContactId) ∨
    (truthyS (contact.bind ContactRec.ghlContactId) = false ∧
      ∃ gid : String, g = some gid ∧
        db1 = saveResolvedContact cfg db contact email gid r) := by
  by_cases hc : truthyS (contact.bind ContactRec.ghlContactId) = true
  · left
    rw [resolveContact_fast _ _ _ _ _ _ hc] at h
    cases h
    exact ⟨hc, rfl, rfl⟩
  · right
    have hc' : truthyS (contact.bind ContactRec.ghlContactId) = false := by
      simpa using hc
    refine ⟨hc', ?_⟩
    simp only [resolveContact, hc', Bool.false_eq_true, if_false] at h
    split at h
    · injection h with h1 h2 h3
      exact ⟨_, h3.symm, h1.symm⟩
    · split at h
      · injection h with h1 h2 h3
        exact ⟨_, h3.symm, h1.symm⟩
      · split at h
        · injection h with h1 h2 h3
          exact ⟨_, h3.symm, h1.symm⟩
        · cases h

/-! ### Filter/find helper lemmas for the contact cache -/

/-- Number of contact records carrying a given email. -/
def countEmail (l : List ContactRec) (em : String) : Nat :=
  (l.filter (fun c => c.email == some em)).length

lemma find?_filter_singleton {α} (p : α → Bool) (l : List α) (c : α)
    (hf : l.find? p = some c) (hlen : (l.filter p).length ≤ 1) : l.filter p = [c] := by
  induction l with
  | nil => simp at hf
  | cons a t ih =>
    cases hp : p a with
    | true =>
      simp only [List.find?_cons, hp, if_true] at hf
      cases hf
      simp only [List.filter_cons, hp, if_true] at hlen ⊢
      simp only [List.length_cons] at hlen
      have h0 : (t.filter p).length = 0 := by omega
      rw [List.length_eq_zero] at h0
      rw [h0]
    | false =>
      simp only [List.find?_cons, hp, if_false] at hf
      simp only [List.filter_cons, hp, if_false] at hlen ⊢
      exact ih hf hlen

lemma filter_nil_of_find?_none {α} (p : α → Bool) (l : List α)
    (hf : l.find? p = none) : l.filter p = [] := by
  rw [List.filter_eq_nil_iff]
  intro x hx
  have := List.find?_eq_none.mp hf x hx
  simpa using this

lemma link_filter (l : List ContactRec) (em gid : String) (c0 : ContactRec)
    (hf : l.find? (fun c => c.email == some em) = some c0)
    (hlen : (l.filter (fun c => c.email == some em)).length ≤ 1) :
    (linkContactByEmail l em gid).filter (fun c => c.email == some em)
      = [{ c0 with ghlContactId := some gid }] := by
  induction l with
  | nil => simp at hf
  | cons a t ih =>
    by_cases hp : a.email = some em
    · have hpb : (a.email == some em) = true := by simp [hp]
      simp only [List.find?_cons, hpb, if_true] at hf
      cases hf
      simp only [List.filter_cons, hpb, if_true, List.length_cons] at hlen
      have h0 : (t.filter (fun c => c.email == some em)).length = 0 := by omega
      rw [List.length_eq_zero] at h0
      simp only [linkContactByEmail, if_pos hp]
      simp [List.filter_cons, hp, h0]
    · have hpb : (a.email == some em) = false := by simp [hp]
      simp only [List.find?_cons, hpb, if_false] at hf
      simp only [List.filter_cons, hpb, if_false] at hlen
      simp only [linkContactByEmail, if_neg hp]
      simp only [List.filter_cons, hpb, if_false]
      exact ih hf hlen

/-! ### C4 -/

/-- Claim C4: assuming the email-uniqueness invariant of the contact cache,
whenever `handleRegistrationEvent` completes resolution with a (truthy)
remote contact id `gid`, the resulting contact cache holds exactly one record
for the normalized registrant email, and that record is linked to `gid`: an
existing unlinked record is repaired in place, a missing one is created, and
no second row for the email ever appears. -/
theorem C4_single_linked_record
    (cfg : Config) (env : RemoteEnv) (db : DB) (payload : Option ZoomPayload)
    (et : String) (gid : String) (db' : DB) (effs : List Effect)
    (huniq : ∀ em : String, countEmail db.contacts em ≤ 1)
    (h : handleRegistrationEvent cfg env db payload et = (db', effs, some gid))
    (hg : gid ≠ "") :
    ∃ c : ContactRec,
      db'.contacts.filter (fun r => r.email == some (normEmailOf payload)) = [c] ∧
      c.ghlContactId = some gid := by
  cases hobj : payload.bind ZoomPayload.object with
  | none =>
    simp [handleRegistrationEvent, hobj] at h
  | some o =>
    by_cases hne : normEmailOf payload = ""
    · have he0 : normalizeEmail (effectiveRegistrant o).email = "" := by
        simpa [normEmailOf, hobj] using hne
      simp [handleRegistrationEvent, hobj, he0] at h
    · rw [handleRegistrationEvent_eq cfg env db payload et o hobj hne] at h
      cases hr : resolveContact cfg env db
          (db.contacts.find? (fun c => c.email == some (normEmailOf payload)))
          (normEmailOf payload) (effectiveRegistrant o) with
      | aborted d e =>
        rw [hr] at h
        simp at h
      | resolved db1 e g =>
        rw [hr] at h
        simp only [applyTagsAndWorkflow_eq, Prod.mk.injEq] at h
        obtain ⟨hdb, -, hgeq⟩ := h
        rcases resolveContact_resolved_inv _ _ _ _ _ _ _ _ _ hr with
          ⟨hc, hdb1, hgc⟩ | ⟨hc, gid', hgp, hdb1⟩
        · -- fast path: the record was already linked
          have hcached : (db.contacts.find?
              (fun c => c.email == some (normEmailOf payload))).bind ContactRec.ghlContactId
              = some gid := by
            rw [← hgc, hgeq]
          cases hfind : db.contacts.find? (fun c => c.email == some (normEmailOf payload)) with
          | none => rw [hfind] at hcached; simp at hcached
          | some c0 =>
            rw [hfind] at hcached
            simp only [Option.some_bind] at hcached
            refine ⟨c0, ?_, hcached⟩
            rw [← hdb, hdb1]
            exact find?_filter_singleton _ db.contacts c0 hfind
              (by simpa [countEmail] using huniq (normEmailOf payload))
        · -- slow path: the record was linked or created by `saveResolvedContact`
          have hgid2 : gid' = gid := by
            rw [hgp] at hgeq
            exact Option.some.inj hgeq
          rw [hgid2] at hdb1
          cases hfind : db.contacts.find? (fun c => c.email == some (normEmailOf payload)) with
          | some c0 =>
            rw [hfind] at hdb1
            simp only [saveResolvedContact, if_neg hg] at hdb1
            refine ⟨{ c0 with ghlContactId := some gid }, ?_, rfl⟩
            rw [← hdb, hdb1]
            exact link_filter db.contacts (normEmailOf payload) gid c0 hfind
              (by simpa [countEmail] using huniq (normEmailOf payload))
          | none =>
            rw [hfind] at hdb1
            simp only [saveResolvedContact, if_neg hg] at hdb1
            refine ⟨⟨some (normEmailOf payload), some gid,
              (effectiveRegistrant o).first_name, (effectiveRegistrant o).last_name,
              (effectiveRegistrant o).phone, cfg.ghlLocationId⟩, ?_, rfl⟩
            rw [← hdb, hdb1]
            have hnil := filter_nil_of_find?_none
              (fun c => c.email == some (normEmailOf payload)) db.contacts hfind
            simp [List.filter_append, hnil, List.filter_cons]

/-- Witness for C4: resolving `req0` against the empty cache leaves exactly one
record for `a@x.com`, linked to the created id `g1`. -/
theorem C4_single_linked_record_witness :
    ∃ c : ContactRec,
      (handleRegistrationEvent cfg0 env0 db0 req0.payload
          "webinar.registration_created").1.contacts.filter
        (fun r => r.email == some (normEmailOf req0.payload)) = [c] ∧
      c.ghlContactId = some "g1" :=
  C4_single_linked_record cfg0 env0 db0 req0.payload "webinar.registration_created" "g1"
    (handleRegistrationEvent cfg0 env0 db0 req0.payload "webinar.registration_created").1
    (handleRegistrationEvent cfg0 env0 db0 req0.payload "webinar.registration_created").2.1
    (by intro em; simp [countEmail, db0])
    (by decide)
    (by decide)

/-! ### C5 -/

/-- Remote contact-resolution calls (search / creation). -/
def isResolutionCall : Effect → Bool
  | Effect.searchContact _ => true
  | Effect.createContact _ => true
  | _ => false

lemma resolveContact_slow_effs (cfg : Config) (env : RemoteEnv) (db : DB)
    (contact : Option ContactRec) (email : String) (r : Registrant)
    (h : truthyS (contact.bind ContactRec.ghlContactId) = false) :
    (∃ db1 g, resolveContact cfg env db contact email r
        = ResolveResult.resolved db1 [Effect.searchContact email] g) ∨
    (∃ db1 g, resolveContact cfg env db contact email r
        = ResolveResult.resolved db1
            [Effect.searchContact email, Effect.createContact r.email] g) ∨
    (resolveContact cfg env db contact email r
        = ResolveResult.aborted db
            [Effect.searchContact email, Effect.createContact r.email]) := by
  simp only [resolveContact, h, Bool.false_eq_true, if_false]
  split
  · exact Or.inl ⟨_, _, rfl⟩
  · split
    · exact Or.inr (Or.inl ⟨_, _, rfl⟩)
    · split
      · exact Or.inr (Or.inl ⟨_, _, rfl⟩)
      · exact Or.inr (Or.inr rfl)

/-- Claim C5: for a processable registration payload, the resolver takes the
fast path — returning the cached id and making no remote search or creation
call — exactly when a local record for the normalized email exists and is
linked; otherwise (no record, or an unlinked record) the first remote call
made is the GHL search by that email, before any creation is considered. -/
theorem C5_fast_path_iff_linked
    (cfg : Config) (env : RemoteEnv) (db : DB) (payload : Option ZoomPayload)
    (et : String) (o : ZoomObject)
    (ho : payload.bind ZoomPayload.object = some o)
    (hne : normEmailOf payload ≠ "") :
    (truthyS ((db.contacts.find? (fun c => c.email == some (normEmailOf payload))).bind
        ContactRec.ghlContactId) = true →
      (handleRegistrationEvent cfg env db payload et).2.2
        = (db.contacts.find? (fun c => c.email == some (normEmailOf payload))).bind
            ContactRec.ghlContactId ∧
      ∀ e ∈ (handleRegistrationEvent cfg env db payload et).2.1,
        isResolutionCall e = false) ∧
    (truthyS ((db.contacts.find? (fun c => c.email == some (normEmailOf payload))).bind
        ContactRec.ghlContactId) = false →
      (handleRegistrationEvent cfg env db payload et).2.1.head?
        = some (Effect.searchContact (normEmailOf payload))) := by
  rw [handleRegistrationEvent_eq cfg env db payload et o ho hne]
  constructor
  · intro hlink
    rw [resolveContact_fast _ _ _ _ _ _ hlink]
    refine ⟨by simp [applyTagsAndWorkflow_eq], ?_⟩
    intro e he
    simp only [applyTagsAndWorkflow_eq, List.nil_append, List.mem_cons] at he
    rcases he with rfl | he
    · rfl
    · split at he
      · simp only [List.mem_singleton] at he
        subst he
        rfl
      · simp at he
  · intro hnl
    rcases resolveContact_slow_effs cfg env db
        (db.contacts.find? (fun c => c.email == some (normEmailOf payload)))
        (normEmailOf payload) (effectiveRegistrant o) hnl with
      ⟨db1, g, hr⟩ | ⟨db1, g, hr⟩ | hr
    · simp [hr, applyTagsAndWorkflow_eq]
    · simp [hr, applyTagsAndWorkflow_eq]
    · simp [hr]

/-- A cache already holding a record for `a@x.com` linked to `g9`. -/
def dbLinked : DB :=
  { ledger := [], settings := [],
    contacts := [⟨some "a@x.com", some "g9", none, none, none, none⟩] }

/-- Witness for C5: with a linked cache record the resolver returns `g9` and
makes no search/creation call; with an empty cache its first remote call is
the search for `a@x.com`. -/
theorem C5_fast_path_iff_linked_witness :
    ((handleRegistrationEvent cfg0 env0 dbLinked req0.payload
          "webinar.registration_created").2.2
        = (dbLinked.contacts.find? (fun c => c.email == some (normEmailOf req0.payload))).bind
            ContactRec.ghlContactId ∧
      ∀ e ∈ (handleRegistrationEvent cfg0 env0 dbLinked req0.payload
          "webinar.registration_created").2.1, isResolutionCall e = false) ∧
    (handleRegistrationEvent cfg0 env0 db0 req0.payload
        "webinar.registration_created").2.1.head?
      = some (Effect.searchContact (normEmailOf req0.payload)) :=
  ⟨(C5_fast_path_iff_linked cfg0 env0 dbLinked req0.payload "webinar.registration_created"
      obj0 (by decide) (by decide)).1 (by decide),
   (C5_fast_path_iff_linked cfg0 env0 db0 req0.payload "webinar.registration_created"
      obj0 (by decide) (by decide)).2 (by decide)⟩

/-! ### C6 -/

lemma resolveContact_recovery (cfg : Config) (env : RemoteEnv) (db : DB)
    (contact : Option ContactRec) (email : String) (r : Registrant) (s : Nat) (gid : String)
    (hnl : truthyS (contact.bind ContactRec.ghlContactId) = false)
    (hs : env.search = SearchOutcome.httpErr s)
    (hc : env.create = CreateOutcome.failed (some 400) (some gid))
    (hgid : gid ≠ "") :
    resolveContact cfg env db contact email r
      = ResolveResult.resolved (saveResolvedContact cfg db contact email gid r)
          [Effect.searchContact email, Effect.createContact r.email] (some gid) := by
  have hmeta : truthyS (some gid) = true := by simp [truthyS, tval, hgid]
  have hjs : jsOrD (some gid) "" = gid := by simp [jsOrD, tval, hgid]
  simp [resolveContact, hnl, hs, hc, hmeta, hjs]

/-- Claim C6: when the local record is missing or unlinked, the remote search
fails with a non-404 error (e.g. 403), and the subsequent creation attempt
fails with a 400 carrying an existing contact id, resolution does not abort:
the creation call is made after the search, the embedded id becomes the
resolved contact id, and tagging proceeds with it. -/
theorem C6_search_error_then_conflict_recovery
    (cfg : Config) (env : RemoteEnv) (db : DB) (payload : Option ZoomPayload)
    (et : String) (o : ZoomObject) (s : Nat) (gid : String)
    (ho : payload.bind ZoomPayload.object = some o)
    (hne : normEmailOf payload ≠ "")
    (hnl : truthyS ((db.contacts.find? (fun c => c.email == some (normEmailOf payload))).bind
        ContactRec.ghlContactId) = false)
    (hs : env.search = SearchOutcome.httpErr s) (h404 : s ≠ 404)
    (hc : env.create = CreateOutcome.failed (some 400) (some gid))
    (hgid : gid ≠ "") :
    (handleRegistrationEvent cfg env db payload et).2.2 = some gid ∧
    Effect.createContact (effectiveRegistrant o).email
      ∈ (handleRegistrationEvent cfg env db payload et).2.1 ∧
    ∃ tags, Effect.addTags (some gid) tags
      ∈ (handleRegistrationEvent cfg env db payload et).2.1 := by
  rw [handleRegistrationEvent_eq cfg env db payload et o ho hne,
      resolveContact_recovery cfg env db _ _ _ s gid hnl hs hc hgid]
  refine ⟨by simp [applyTagsAndWorkflow_eq], by simp [applyTagsAndWorkflow_eq],
    ⟨[currentGlobalTag (saveResolvedContact cfg db
        (db.contacts.find? (fun c => c.email == some (normEmailOf payload)))
        (normEmailOf payload) gid (effectiveRegistrant o)), "zoom registered"], ?_⟩⟩
  simp [applyTagsAndWorkflow_eq]

/-- A remote environment where search fails with 403 and creation fails with a
400 conflict embedding the existing id `g7`. -/
def env403 : RemoteEnv :=
  { search := SearchOutcome.httpErr 403,
    create := CreateOutcome.failed (some 400) (some "g7"),
    tagsOk := true, workflowOk := true, ledgerFail := false, now := now0 }

/-- Witness for C6: under `env403` the resolution of `req0` recovers the id
`g7`, after making the creation call, and tags it. -/
theorem C6_search_error_then_conflict_recovery_witness :
    (handleRegistrationEvent cfg0 env403 db0 req0.payload
        "webinar.registration_created").2.2 = some "g7" ∧
    Effect.createContact (effectiveRegistrant obj0).email
      ∈ (handleRegistrationEvent cfg0 env403 db0 req0.payload
          "webinar.registration_created").2.1 ∧
    ∃ tags, Effect.addTags (some "g7") tags
      ∈ (handleRegistrationEvent cfg0 env403 db0 req0.payload
          "webinar.registration_created").2.1 :=
  C6_search_error_then_conflict_recovery cfg0 env403 db0 req0.payload
    "webinar.registration_created" obj0 403 "g7"
    (by decide) (by decide) (by decide) rfl (by decide) rfl (by decide)

/-! ### C7 -/

/-- The effect trace of a resolution result. -/
def rrEffs : ResolveResult → List Effect
  | ResolveResult.resolved _ e _ => e
  | ResolveResult.aborted _ e => e

lemma resolveContact_effs_no_tags (cfg : Config) (env : RemoteEnv) (db : DB)
    (contact : Option ContactRec) (email : String) (r : Registrant)
    (c : Option String) (t : List String) :
    Effect.addTags c t ∉ rrEffs (resolveContact cfg env db contact email r) := by
  simp only [resolveContact]
  split
  · simp [rrEffs]
  · split
    · simp [rrEffs]
    · split
      · simp [rrEffs]
      · split
        · simp [rrEffs]
        · simp [rrEffs]

lemma settingsFind_upsert (db : DB) (k v : String) :
    settingsFind (settingsUpsert db k v) k = some v := by
  simp only [settingsFind, settingsUpsert]
  have hput : ∀ l : List (String × String),
      (settingsPut l k v).find? (fun s => s.1 == k) = some (k, v) := by
    intro l
    induction l with
    | nil => simp [settingsPut]
    | cons s rest ih =>
      by_cases hs : s.1 = k
      · simp [settingsPut, hs, List.find?_cons]
      · simp only [settingsPut, if_neg hs]
        simp [List.find?_cons, show (s.1 == k) = false by simp [hs], ih]
  rw [hput]
  rfl

lemma currentGlobalTag_upsert (db : DB) (v : String) (hv : v ≠ "") :
    currentGlobalTag (settingsUpsert db "globalZoomTag" v) = v := by
  simp [currentGlobalTag, settingsFind_upsert, jsOrD, tval, hv]

lemma handleRegistrationEvent_tags (cfg : Config) (env : RemoteEnv) (db : DB)
    (payload : Option ZoomPayload) (et : String) (cid : Option String) (tags : List String)
    (h : Effect.addTags cid tags ∈ (handleRegistrationEvent cfg env db payload et).2.1) :
    tags = [currentGlobalTag db, "zoom registered"] := by
  cases hobj : payload.bind ZoomPayload.object with
  | none => simp [handleRegistrationEvent, hobj] at h
  | some o =>
    by_cases hne : normEmailOf payload = ""
    · have he0 : normalizeEmail (effectiveRegistrant o).email = "" := by
        simpa [normEmailOf, hobj] using hne
      simp [handleRegistrationEvent, hobj, he0] at h
    · rw [handleRegistrationEvent_eq cfg env db payload et o hobj hne] at h
      cases hr : resolveContact cfg env db
          (db.contacts.find? (fun c => c.email == some (normEmailOf payload)))
          (normEmailOf payload) (effectiveRegistrant o) with
      | aborted d e =>
        rw [hr] at h
        have hno := resolveContact_effs_no_tags cfg env db
          (db.contacts.find? (fun c => c.email == some (normEmailOf payload)))
          (normEmailOf payload) (effectiveRegistrant o) cid tags
        rw [hr] at hno
        exact absurd h hno
      | resolved db1 e g =>
        rw [hr] at h
        simp only [applyTagsAndWorkflow_eq] at h
        have hset : db1.settings = db.settings := by
          have hx := resolveContact_settings cfg env db
            (db.contacts.find? (fun c => c.email == some (normEmailOf payload)))
            (normEmailOf payload) (effectiveRegistrant o)
          rw [hr] at hx
          exact hx
        rw [List.mem_append] at h
        rcases h with h | h
        · have hno := resolveContact_effs_no_tags cfg env db
            (db.contacts.find? (fun c => c.email == some (normEmailOf payload)))
            (normEmailOf payload) (effectiveRegistrant o) cid tags
          rw [hr] at hno
          exact absurd h hno
        · rw [List.mem_cons] at h
          rcases h with h | h
          · injection h with h1 h2
            rw [h2]
            simp [currentGlobalTag, settingsFind, hset]
          · split at h
            · simp at h
            · simp at h

/-- Claim C7: every tag application recorded while processing an event carries
exactly the global tag value read from the store state the event is processed
against (or the fixed default `Zoom Registration` when absent) together with
the fixed literal `zoom registered`; in particular, after the Global Setting
is changed to `v`, the next event's tags carry `v`, never a cached value. -/
theorem C7_global_tag_reread
    (cfg : Config) (env : RemoteEnv) (db : DB) (payload : Option ZoomPayload) (et : String) :
    (∀ cid tags, Effect.addTags cid tags ∈ (handleRegistrationEvent cfg env db payload et).2.1 →
      tags = [currentGlobalTag db, "zoom registered"]) ∧
    (∀ v : String, v ≠ "" → ∀ cid tags,
      Effect.addTags cid tags
        ∈ (handleRegistrationEvent cfg env (settingsUpsert db "globalZoomTag" v) payload et).2.1 →
      tags = [v, "zoom registered"]) := by
  constructor
  · intro cid tags h
    exact handleRegistrationEvent_tags cfg env db payload et cid tags h
  · intro v hv cid tags h
    have ht := handleRegistrationEvent_tags cfg env _ payload et cid tags h
    rw [currentGlobalTag_upsert db v hv] at ht
    exact ht

/-- Witness for C7: after the Global Setting is changed to `Promo`, processing
`req0` tags with `Promo` (the tag list is exactly the one the theorem
prescribes). -/
theorem C7_global_tag_reread_witness :
    Effect.addTags (some "g1") ["Promo", "zoom registered"]
      ∈ (handleRegistrationEvent cfg0 env0 (settingsUpsert db0 "globalZoomTag" "Promo")
          req0.payload "webinar.registration_created").2.1 ∧
    ["Promo", "zoom registered"] = ["Promo", "zoom registered"] :=
  ⟨by decide,
   (C7_global_tag_reread cfg0 env0 db0 req0.payload "webinar.registration_created").2
     "Promo" (by decide) (some "g1") ["Promo", "zoom registered"] (by decide)⟩

/-! ### C8 -/

lemma zoomRespStatus_cases (r : ZoomResp) :
    r.status = 200 ∨ r.status = 400 ∨ r.status = 401 ∨ r.status = 500 := by
  cases r <;> simp [ZoomResp.status]

/-- Claim C8: every `/zoom-webhook` response carries status 200 (success,
validation, or duplicate), 400 (missing validation inputs), 401 (signature
failure) or 500 (unexpected failure); and when the ledger storage fails while
an event with a derived identity is being deduplicated, the handler answers
500 — the internal recovery nuance never appears as any other status. -/
theorem C8_response_statuses
    (cfg : Config) (env : RemoteEnv) (hmac : String → String → String)
    (race : Option LedgerEntry) (db : DB) (req : ZoomReq) :
    ((processZoomWebhook cfg env hmac race db req).2.2.status = 200 ∨
     (processZoomWebhook cfg env hmac race db req).2.2.status = 400 ∨
     (processZoomWebhook cfg env hmac race db req).2.2.status = 401 ∨
     (processZoomWebhook cfg env hmac race db req).2.2.status = 500) ∧
    (env.ledgerFail = true →
      req.event ≠ some "endpoint.url_validation" →
      (cfg.verifySignature = false ∨ verifyZoomSignature cfg hmac req = true) →
      (tval (deriveEventId req)).isSome = true →
      (processZoomWebhook cfg env hmac race db req).2.2 = ZoomResp.serverError) := by
  constructor
  · exact zoomRespStatus_cases _
  · intro hlf hval hsig hsome
    have hcond : (cfg.verifySignature && !(verifyZoomSignature cfg hmac req)) = false := by
      rcases hsig with h | h <;> simp [h]
    obtain ⟨eid, hid⟩ := Option.isSome_iff_exists.mp hsome
    simp [processZoomWebhook, hval, hcond, hid, hlf]

/-- A remote environment whose ZoomEvent storage layer is unavailable. -/
def envFail : RemoteEnv := { env0 with ledgerFail := true }

/-- Witness for C8: the status range at a concrete request, and the concrete
storage failure answered with 500. -/
theorem C8_response_statuses_witness :
    ((processZoomWebhook cfg0 envFail hmac0 none db0 req0).2.2.status = 200 ∨
     (processZoomWebhook cfg0 envFail hmac0 none db0 req0).2.2.status = 400 ∨
     (processZoomWebhook cfg0 envFail hmac0 none db0 req0).2.2.status = 401 ∨
     (processZoomWebhook cfg0 envFail hmac0 none db0 req0).2.2.status = 500) ∧
    (processZoomWebhook cfg0 envFail hmac0 none db0 req0).2.2 = ZoomResp.serverError :=
  ⟨(C8_response_statuses cfg0 envFail hmac0 none db0 req0).1,
   (C8_response_statuses cfg0 envFail hmac0 none db0 req0).2
     rfl (by decide) (Or.inl rfl) (by decide)⟩

/-! ### C9 -/

lemma trimStr_empty : trimStr "" = "" := rfl

lemma truthyS_exists {o : Option String} (h : truthyS o = true) :
    ∃ s, o = some s ∧ s ≠ "" := by
  cases o with
  | none => simp [truthyS, tval] at h
  | some s =>
    by_cases hs : s = ""
    · simp [truthyS, tval, hs] at h
    · exact ⟨s, rfl, hs⟩

lemma sanitizeEmail_ne_some_empty (e : Option String) : sanitizeEmail e ≠ some "" := by
  cases e with
  | none => simp [sanitizeEmail]
  | some s =>
    by_cases hs : trimStr s = ""
    · simp [sanitizeEmail, hs]
    · simp only [sanitizeEmail, if_neg hs]
      intro h0
      apply hs
      rw [Option.some.inj h0]
      rfl

lemma truthyS_sanitize (e : Option String) :
    truthyS (sanitizeEmail e) = (sanitizeEmail e).isSome := by
  cases e with
  | none => rfl
  | some s =>
    by_cases hs : trimStr s = ""
    · simp [sanitizeEmail, hs, truthyS, tval]
    · have hsne : s ≠ "" := by
        intro h0
        apply hs
        rw [h0]
        rfl
      simp [sanitizeEmail, hs, truthyS, tval, hsne]

lemma ghlTagStep_contacts (db : DB) (z : Option String) :
    (ghlTagStep db z).contacts = db.contacts := by
  simp only [ghlTagStep]
  split
  · split
    · rfl
    · split <;> rfl
  · rfl

lemma upsertFirst_exists (p : ContactRec → Bool) (u : ContactUpdate) (l : List ContactRec)
    (Q : ContactRec → Prop)
    (h1 : ∀ c, Q (applyUpdate c u)) (h2 : Q (docOfUpdate u)) :
    ∃ c ∈ upsertFirst p u l, Q c := by
  induction l with
  | nil => exact ⟨docOfUpdate u, by simp [upsertFirst], h2⟩
  | cons a t ih =>
    by_cases hp : p a
    · exact ⟨applyUpdate a u, by simp [upsertFirst, hp], h1 a⟩
    · obtain ⟨c, hc, hq⟩ := ih
      refine ⟨c, ?_, hq⟩
      simp only [upsertFirst, if_neg hp, List.mem_cons]
      exact Or.inr hc

lemma upsertFirst_preserve (p : ContactRec → Bool) (u : ContactUpdate) (l : List ContactRec)
    (Q : ContactRec → Prop)
    (hl : ∀ c ∈ l, Q c) (h1 : ∀ c, Q c → Q (applyUpdate c u)) (h2 : Q (docOfUpdate u)) :
    ∀ c ∈ upsertFirst p u l, Q c := by
  induction l with
  | nil =>
    intro c hc
    simp [upsertFirst] at hc
    subst hc
    exact h2
  | cons a t ih =>
    intro c hc
    by_cases hp : p a
    · simp only [upsertFirst, if_pos hp, List.mem_cons] at hc
      rcases hc with rfl | hc
      · exact h1 a (hl a (by simp))
      · exact hl c (by simp [hc])
    · simp only [upsertFirst, if_neg hp, List.mem_cons] at hc
      rcases hc with rfl | hc
      · exact hl c (by simp)
      · exact ih (fun x hx => hl x (by simp [hx])) c hc

lemma processGhlWebhook_resp (cfg : Config) (db : DB) (body : GhlBody) :
    (processGhlWebhook cfg db body).2 =
      (if (!(truthyS (sanitizeEmail (body.customData.getD body.flat).email))
          && !(truthyS (body.customData.getD body.flat).contactId)) = true
       then GhlResp.missingFields else GhlResp.synced) := by
  by_cases hB : (!(truthyS (sanitizeEmail (body.customData.getD body.flat).email))
      && !(truthyS (body.customData.getD body.flat).contactId)) = true
  · simp [processGhlWebhook, hB]
  · simp [processGhlWebhook, hB]

lemma processGhlWebhook_contacts (cfg : Config) (db : DB) (body : GhlBody)
    (hB : (!(truthyS (sanitizeEmail (body.customData.getD body.flat).email))
        && !(truthyS (body.customData.getD body.flat).contactId)) = false) :
    (processGhlWebhook cfg db body).1.contacts =
      (if truthyS (body.customData.getD body.flat).contactId
       then upsertFirst (fun c => c.ghlContactId == (body.customData.getD body.flat).contactId)
              (ghlUpdateOf cfg (body.customData.getD body.flat)) db.contacts
       else upsertFirst (fun c => c.email == sanitizeEmail (body.customData.getD body.flat).email)
              (ghlUpdateOf cfg (body.customData.getD body.flat)) db.contacts) := by
  simp only [processGhlWebhook, hB, Bool.false_eq_true, if_false]
  cases hct : truthyS (body.customData.getD body.flat).contactId <;>
    simp [hct, ghlTagStep_contacts, ghlUpdateOf]

/-- Claim C9: the configuration-intake handler normalizes an empty-string email
to absent, answers 400 exactly when both the normalized email and the
contactId are absent (leaving the DB untouched), otherwise upserts the contact
keyed by contactId when present, else by email — and an empty-string email is
never persisted. -/
theorem C9_config_intake (cfg : Config) (db : DB) (body : GhlBody) :
    ((processGhlWebhook cfg db body).2 = GhlResp.missingFields ↔
      (sanitizeEmail (body.customData.getD body.flat).email = none ∧
       truthyS (body.customData.getD body.flat).contactId = false)) ∧
    ((processGhlWebhook cfg db body).2 = GhlResp.missingFields →
      (processGhlWebhook cfg db body).1 = db) ∧
    (truthyS (body.customData.getD body.flat).contactId = true →
      ∃ c ∈ (processGhlWebhook cfg db body).1.contacts,
        c.ghlContactId = (body.customData.getD body.flat).contactId) ∧
    (truthyS (body.customData.getD body.flat).contactId = false →
      sanitizeEmail (body.customData.getD body.flat).email ≠ none →
      ∃ c ∈ (processGhlWebhook cfg db body).1.contacts,
        c.email = sanitizeEmail (body.customData.getD body.flat).email) ∧
    ((∀ c ∈ db.contacts, c.email ≠ some "") →
      ∀ c ∈ (processGhlWebhook cfg db body).1.contacts, c.email ≠ some "") := by
  have hts : truthyS (sanitizeEmail (body.customData.getD body.flat).email) = false ↔
      sanitizeEmail (body.customData.getD body.flat).email = none := by
    rw [truthyS_sanitize]
    cases sanitizeEmail (body.customData.getD body.flat).email <;> simp
  refine ⟨?_, ?_, ?_, ?_, ?_⟩
  · rw [processGhlWebhook_resp]
    constructor
    · intro h
      split at h
      · next hB =>
        rw [Bool.and_eq_true, Bool.not_eq_true', Bool.not_eq_true'] at hB
        exact ⟨hts.mp hB.1, hB.2⟩
      · cases h
    · intro ⟨h1, h2⟩
      have hB : (!(truthyS (sanitizeEmail (body.customData.getD body.flat).email))
          && !(truthyS (body.customData.getD body.flat).contactId)) = true := by
        rw [Bool.and_eq_true, Bool.not_eq_true', Bool.not_eq_true']
        exact ⟨hts.mpr h1, h2⟩
      rw [hB]
      rfl
  · intro h
    rw [processGhlWebhook_resp] at h
    split at h
    · next hB => simp [processGhlWebhook, hB]
    · cases h
  · intro hct
    have hB : (!(truthyS (sanitizeEmail (body.customData.getD body.flat).email))
        && !(truthyS (body.customData.getD body.flat).contactId)) = false := by
      simp [hct]
    rw [processGhlWebhook_contacts cfg db body hB, if_pos hct]
    obtain ⟨cid, hcid, -⟩ := truthyS_exists hct
    refine upsertFirst_exists _ _ _ (fun c => c.ghlContactId = (body.customData.getD body.flat).contactId) ?_ ?_
    · intro c
      simp [applyUpdate, ghlUpdateOf, hcid, setField]
    · simp [docOfUpdate, ghlUpdateOf]
  · intro hct hse
    have htse : truthyS (sanitizeEmail (body.customData.getD body.flat).email) = true := by
      cases htv : truthyS (sanitizeEmail (body.customData.getD body.flat).email) with
      | true => rfl
      | false => exact absurd (hts.mp htv) hse
    have hB : (!(truthyS (sanitizeEmail (body.customData.getD body.flat).email))
        && !(truthyS (body.customData.getD body.flat).contactId)) = false := by
      simp [htse]
    rw [processGhlWebhook_contacts cfg db body hB, if_neg (by simp [hct])]
    obtain ⟨em, hem, -⟩ := truthyS_exists htse
    refine upsertFirst_exists _ _ _ (fun c => c.email = sanitizeEmail (body.customData.getD body.flat).email) ?_ ?_
    · intro c
      simp [applyUpdate, ghlUpdateOf, hem, setField]
    · simp [docOfUpdate, ghlUpdateOf]
  · intro hinv
    by_cases hB : (!(truthyS (sanitizeEmail (body.customData.getD body.flat).email))
        && !(truthyS (body.customData.getD body.flat).contactId)) = true
    · have : (processGhlWebhook cfg db body).1 = db := by simp [processGhlWebhook, hB]
      rw [this]
      exact hinv
    · have hB' : (!(truthyS (sanitizeEmail (body.customData.getD body.flat).email))
          && !(truthyS (body.customData.getD body.flat).contactId)) = false := by
        simpa using hB
      intro c hc
      rw [processGhlWebhook_contacts cfg db body hB'] at hc
      have hQ1 : ∀ x : ContactRec, x.email ≠ some "" →
          (applyUpdate x (ghlUpdateOf cfg (body.customData.getD body.flat))).email ≠ some "" := by
        intro x hx
        simp only [applyUpdate, ghlUpdateOf]
        cases hse : sanitizeEmail (body.customData.getD body.flat).email with
        | none => simpa [setField, hse] using hx
        | some v =>
          have := sanitizeEmail_ne_some_empty (body.customData.getD body.flat).email
          rw [hse] at this
          simpa [setField, hse] using this
      have hQ2 : (docOfUpdate (ghlUpdateOf cfg (body.customData.getD body.flat))).email ≠ some "" := by
        simp only [docOfUpdate, ghlUpdateOf]
        exact sanitizeEmail_ne_some_empty (body.customData.getD body.flat).email
      split at hc
      · exact upsertFirst_preserve _ _ _ _ hinv hQ1 hQ2 c hc
      · exact upsertFirst_preserve _ _ _ _ hinv hQ1 hQ2 c hc

/-- The spec §8 configuration scenario: `contactId = "c1"`, empty-string
email, `zoom_tag = "Promo"`. -/
def body0 : GhlBody :=
  { customData := some ⟨some "c1", some "", none, none, none, none, some "Promo"⟩,
    flat := ⟨none, none, none, none, none, none, none⟩ }

/-- Witness for C9: the scenario body is accepted, a record keyed by `c1`
exists afterwards, and no empty-string email is persisted. -/
theorem C9_config_intake_witness :
    ¬((processGhlWebhook cfg0 db0 body0).2 = GhlResp.missingFields) ∧
    (∃ c ∈ (processGhlWebhook cfg0 db0 body0).1.contacts,
      c.ghlContactId = (body0.customData.getD body0.flat).contactId) ∧
    (∀ c ∈ (processGhlWebhook cfg0 db0 body0).1.contacts, c.email ≠ some "") :=
  ⟨fun h => by
      have := ((C9_config_intake cfg0 db0 body0).1).mp h
      exact absurd this.2 (by decide),
   ((C9_config_intake cfg0 db0 body0).2.2.1) (by decide),
   ((C9_config_intake cfg0 db0 body0).2.2.2.2) (by intro c hc; simp [db0] at hc)⟩

/-! ### C10 -/

lemma append_offset_ne_append_z (q p : String) : q ++ "+00:00" ≠ p ++ "Z" := by
  intro h
  have hd := congrArg String.data h
  simp only [String.data_append] at hd
  have h1 : (q.data ++ "+00:00".data).getLast? = (p.data ++ "Z".data).getLast? := by rw [hd]
  have e1 : "+00:00".data = [Char.ofNat 43, Char.ofNat 48, Char.ofNat 48, Char.ofNat 58,
      Char.ofNat 48, Char.ofNat 48] := by decide
  have e2 : "Z".data = [Char.ofNat 90] := by decide
  rw [e1, e2] at h1
  have a1 : q.data ++ [Char.ofNat 43, Char.ofNat 48, Char.ofNat 48, Char.ofNat 58,
      Char.ofNat 48, Char.ofNat 48]
      = (q.data ++ [Char.ofNat 43, Char.ofNat 48, Char.ofNat 48, Char.ofNat 58,
          Char.ofNat 48]) ++ [Char.ofNat 48] := by simp
  rw [a1, List.getLast?_concat, List.getLast?_concat] at h1
  simp at h1

/-- Claim C10: the workflow-enrollment timestamp built by `addContactToWorkflow`
always ends in the explicit `+00:00` UTC offset and never in a zoned `Z`
suffix; when a workflow id is configured and tagging succeeded, the enrollment
call is made immediately after the tagging call for the same resolved contact;
and the enrollment call's outcome (success or failure) changes nothing — the
same DB state, effect trace, resolution outcome and webhook response result
either way. -/
theorem C10_workflow_enrollment
    (cfg : Config) (env : RemoteEnv) (db : DB) (payload : Option ZoomPayload)
    (et : String) (hmac : String → String → String) (race : Option LedgerEntry)
    (req : ZoomReq) :
    (∀ t : UTCTime, ∃ p, formatGhlTimestamp t = p ++ "+00:00") ∧
    (∀ t : UTCTime, ∀ p, formatGhlTimestamp t ≠ p ++ "Z") ∧
    (∀ gid : String,
      (handleRegistrationEvent cfg env db payload et).2.2 = some gid →
      env.tagsOk = true → truthyS cfg.ghlWorkflowId = true →
      ∃ pre tags, (handleRegistrationEvent cfg env db payload et).2.1
        = pre ++ [Effect.addTags (some gid) tags,
                  Effect.enrollWorkflow (some gid) (jsOrD cfg.ghlWorkflowId "")
                    (formatGhlTimestamp env.now)]) ∧
    (∀ b₁ b₂ : Bool,
      handleRegistrationEvent cfg { env with workflowOk := b₁ } db payload et
        = handleRegistrationEvent cfg { env with workflowOk := b₂ } db payload et ∧
      processZoomWebhook cfg { env with workflowOk := b₁ } hmac race db req
        = processZoomWebhook cfg { env with workflowOk := b₂ } hmac race db req) := by
  refine ⟨?_, ?_, ?_, ?_⟩
  · intro t
    exact ⟨_, rfl⟩
  · intro t p
    exact append_offset_ne_append_z _ p
  · intro gid hout htags hwf
    cases hobj : payload.bind ZoomPayload.object with
    | none => simp [handleRegistrationEvent, hobj] at hout
    | some o =>
      by_cases hne : normEmailOf payload = ""
      · have he0 : normalizeEmail (effectiveRegistrant o).email = "" := by
          simpa [normEmailOf, hobj] using hne
        simp [handleRegistrationEvent, hobj, he0] at hout
      · rw [handleRegistrationEvent_eq cfg env db payload et o hobj hne] at hout ⊢
        cases hr : resolveContact cfg env db
            (db.contacts.find? (fun c => c.email == some (normEmailOf payload)))
            (normEmailOf payload) (effectiveRegistrant o) with
        | aborted d e =>
          rw [hr] at hout
          simp at hout
        | resolved db1 e g =>
          rw [hr] at hout
          simp [applyTagsAndWorkflow_eq] at hout
          simp only [applyTagsAndWorkflow_eq]
          refine ⟨e, [currentGlobalTag db1, "zoom registered"], ?_⟩
          simp [hout, htags, hwf]
  · intro b₁ b₂
    exact ⟨rfl, rfl⟩

/-- Witness for C10: the concrete timestamp decomposition, and the concrete
trace of `req0`'s processing tagging `g1` then enrolling it in `wf1`. -/
theorem C10_workflow_enrollment_witness :
    (∃ p, formatGhlTimestamp now0 = p ++ "+00:00") ∧
    (∃ pre tags, (handleRegistrationEvent cfg0 env0 db0 req0.payload
        "webinar.registration_created").2.1
      = pre ++ [Effect.addTags (some "g1") tags,
                Effect.enrollWorkflow (some "g1") (jsOrD cfg0.ghlWorkflowId "")
                  (formatGhlTimestamp env0.now)]) :=
  ⟨(C10_workflow_enrollment cfg0 env0 db0 req0.payload "webinar.registration_created"
      hmac0 none req0).1 now0,
   (C10_workflow_enrollment cfg0 env0 db0 req0.payload "webinar.registration_created"
      hmac0 none req0).2.2.1 "g1" (by decide) rfl (by decide)⟩

end GhlZoom
